import Mathlib

/-!
# pubmedFastRAG: the search proxy handler of `app/main.go`

A shallow embedding of `handleSearch` and of the library calls it is made of.

Modelling decisions.

* `encoding/json`, `gin` and `net/http` are libraries, not code of the
  repository. What `handleSearch` uses of them is modelled after their
  documented behaviour: how a JSON value is decoded into a struct or a slice
  (members matched to fields by name, exactly or up to case; unknown members
  skipped; `null` leaving a field as it is; the first type error kept while
  decoding goes on), how a struct, a slice and a `gin.H` are encoded, that
  `gin` requires a field only when it carries a `binding` tag, and that a
  failed `http.Post` returns a `*url.Error`.

* HTTP bodies are taken at the level of the JSON document they hold, not of
  their bytes: a body is `some v` for the JSON value `v` that the Go decoder
  reads from it, and `none` when there is no such value (empty body, syntax
  error). For the inbound request, `gin` decodes with a streaming
  `json.Decoder`, so `v` is the first value of the stream; for the backend
  response, `json.Unmarshal` wants the whole body to be one value.
* A JSON number keeps what Go's decoder looks at when the target is an `int`:
  a literal made of an optional minus sign and digits is `JSON.int n`, every
  literal with a fraction or an exponent is `JSON.real`.
* Go's `int` is the 64-bit signed integer; `GoInt` is an integer together
  with the two range bounds.
* Go strings that come out of the JSON decoder are valid UTF-8; they are
  `String` here.
* The effects of the handler (responses written to the `gin.Context`,
  requests issued with `http.Post`, lines sent to `log`) are collected in a
  `World` that every effectful call extends.
-/

namespace PubmedFastRAG

/-! ## JSON documents -/

/-- JSON value, as read by `encoding/json`. -/
inductive JSON where
  | null
  | bool (b : Bool)
  | int (n : Int)
  | real (literal : String)
  | str (s : String)
  | arr (items : List JSON)
  | obj (members : List (String × JSON))

/-- The word `encoding/json` uses for a value in an `UnmarshalTypeError`. -/
def JSON.kind : JSON → String
  | .null => "null"
  | .bool _ => "bool"
  | .int _ => "number"
  | .real _ => "number"
  | .str _ => "string"
  | .arr _ => "array"
  | .obj _ => "object"

/-- An HTTP body: the JSON document it holds, `none` when it holds none. -/
abbrev Body := Option JSON

/-! ## Go integers -/

/-- Smallest value of Go's `int` (64 bits). -/
def minInt : Int := -9223372036854775808

/-- Largest value of Go's `int` (64 bits). -/
def maxInt : Int := 9223372036854775807

/-- Go's `int`. -/
structure GoInt where
  val : Int
  lo : minInt ≤ val
  hi : val ≤ maxInt
deriving DecidableEq

/-- The zero value of `int`. -/
def GoInt.zero : GoInt := ⟨0, by decide, by decide⟩

/-- The constant `100` of `handleSearch`. -/
def GoInt.hundred : GoInt := ⟨100, by decide, by decide⟩

/-! ## The two records of `main.go` -/

/-- The record `type RAGRequest struct`, fields tagged `query` and `k`. -/
structure RAGRequest where
  Query : String
  K : GoInt
deriving DecidableEq

/-- The record `type RAGResponse struct`, fields tagged `pmid`, `distance`, `authors`,
`title`, `abstract`, `publication_year`. -/
structure RAGResponse where
  PMID : GoInt
  Distance : GoInt
  Authors : String
  Title : String
  Abstract : String
  PublicationYear : GoInt
deriving DecidableEq

/-- The zero value of `RAGRequest`, what `var req RAGRequest` declares. -/
def RAGRequest.zero : RAGRequest := ⟨"", GoInt.zero⟩

/-- The zero value of `RAGResponse`. -/
def RAGResponse.zero : RAGResponse := ⟨GoInt.zero, GoInt.zero, "", "", "", GoInt.zero⟩

/-- Fields of `RAGRequest`. -/
inductive RequestField where
  | query
  | k
deriving DecidableEq

/-- Fields of `RAGResponse`. -/
inductive ResponseField where
  | pmid
  | distance
  | authors
  | title
  | abstract
  | publicationYear
deriving DecidableEq

/-- The `json:"..."` tags of `RAGRequest`, in declaration order. -/
def requestFields : List (String × RequestField) :=
  [("query", .query), ("k", .k)]

/-- The `json:"..."` tags of `RAGResponse`, in declaration order. -/
def responseFields : List (String × ResponseField) :=
  [("pmid", .pmid), ("distance", .distance), ("authors", .authors),
   ("title", .title), ("abstract", .abstract), ("publication_year", .publicationYear)]

/-! ## `encoding/json`: decoding -/

/-- Case folding of one character of an object key, as far as it can reach an
ASCII letter: ASCII lower case goes to upper case, the Kelvin sign to `K` and
the long s to `S` (the only non-ASCII characters in the fold orbit of an
ASCII letter). -/
def foldRune (c : Char) : Char :=
  if c = Char.ofNat 0x212A then 'K'
  else if c = Char.ofNat 0x17F then 'S'
  else c.toUpper

/-- Folded form of an object key (`foldName` of `encoding/json`). -/
def foldName (s : String) : List Char := s.data.map foldRune

/-- The struct field an object key is decoded into: the field with exactly
that name, else the first field whose name matches up to case; `none` for a
key that matches no field (such a member is skipped). -/
def lookupField {α : Type} (fields : List (String × α)) (key : String) : Option α :=
  match fields.find? (fun f => f.1 == key) with
  | some f => some f.2
  | none =>
    match fields.find? (fun f => foldName f.1 == foldName key) with
    | some f => some f.2
    | none => none

/-- The error `encoding/json` reports: either the bytes hold no JSON value
(`*json.SyntaxError`, `io.EOF`), or a value does not fit the Go type it is
decoded into (`*json.UnmarshalTypeError`, with the kind of the JSON value and
the name of the struct field, empty at top level). -/
inductive DecodeError where
  | noDocument
  | typeMismatch (value : String) (field : String)
deriving DecidableEq

/-- Decode a JSON value into a `string` field: a string is stored, `null`
leaves the field as it is, anything else is a type error and leaves the
field as it is. -/
def decodeString (field : String) (v : JSON) (cur : String) : String × Option DecodeError :=
  match v with
  | .str s => (s, none)
  | .null => (cur, none)
  | other => (cur, some (.typeMismatch other.kind field))

/-- Decode a JSON value into an `int` field: an integer literal within the
64-bit range is stored, `null` leaves the field as it is, anything else
(a literal out of range, a literal with fraction or exponent, a value of
another kind) is a type error and leaves the field as it is. -/
def decodeInt (field : String) (v : JSON) (cur : GoInt) : GoInt × Option DecodeError :=
  match v with
  | .int n =>
    if h : minInt ≤ n ∧ n ≤ maxInt then (⟨n, h.1, h.2⟩, none)
    else (cur, some (.typeMismatch "number" field))
  | .null => (cur, none)
  | other => (cur, some (.typeMismatch other.kind field))

/-- The first of two errors: the decoder keeps the first type error it meets
(`d.saveError`) and goes on decoding. -/
def firstError (e1 e2 : Option DecodeError) : Option DecodeError :=
  match e1 with
  | some e => some e
  | none => e2

/-- Decode the members of a JSON object, in order, into a struct. -/
def decodeMembers {σ : Type} (step : σ → String → JSON → σ × Option DecodeError) :
    List (String × JSON) → σ → σ × Option DecodeError
  | [], s => (s, none)
  | (key, v) :: rest, s =>
    let r1 := step s key v
    let r2 := decodeMembers step rest r1.1
    (r2.1, firstError r1.2 r2.2)

/-- Decode one object member into a `RAGRequest`. -/
def RAGRequest.setMember (r : RAGRequest) (key : String) (v : JSON) :
    RAGRequest × Option DecodeError :=
  match lookupField requestFields key with
  | some .query => let d := decodeString "query" v r.Query; ({ r with Query := d.1 }, d.2)
  | some .k => let d := decodeInt "k" v r.K; ({ r with K := d.1 }, d.2)
  | none => (r, none)

/-- Decode one object member into a `RAGResponse`. -/
def RAGResponse.setMember (r : RAGResponse) (key : String) (v : JSON) :
    RAGResponse × Option DecodeError :=
  match lookupField responseFields key with
  | some .pmid => let d := decodeInt "pmid" v r.PMID; ({ r with PMID := d.1 }, d.2)
  | some .distance => let d := decodeInt "distance" v r.Distance; ({ r with Distance := d.1 }, d.2)
  | some .authors => let d := decodeString "authors" v r.Authors; ({ r with Authors := d.1 }, d.2)
  | some .title => let d := decodeString "title" v r.Title; ({ r with Title := d.1 }, d.2)
  | some .abstract => let d := decodeString "abstract" v r.Abstract; ({ r with Abstract := d.1 }, d.2)
  | some .publicationYear =>
    let d := decodeInt "publication_year" v r.PublicationYear
    ({ r with PublicationYear := d.1 }, d.2)
  | none => (r, none)

/-- Decode a JSON value into a `RAGRequest`: an object fills the fields its
members name, `null` changes nothing, any other value is a type error. -/
def decodeRequest (v : JSON) (r : RAGRequest) : RAGRequest × Option DecodeError :=
  match v with
  | .obj members => decodeMembers RAGRequest.setMember members r
  | .null => (r, none)
  | other => (r, some (.typeMismatch other.kind ""))

/-- Decode a JSON value into a `RAGResponse`. -/
def decodeResponse (v : JSON) (r : RAGResponse) : RAGResponse × Option DecodeError :=
  match v with
  | .obj members => decodeMembers RAGResponse.setMember members r
  | .null => (r, none)
  | other => (r, some (.typeMismatch other.kind ""))

/-- Decode the elements of a JSON array, each into a fresh `RAGResponse`. -/
def decodeElements : List JSON → List RAGResponse × Option DecodeError
  | [] => ([], none)
  | v :: rest =>
    let r1 := decodeResponse v RAGResponse.zero
    let r2 := decodeElements rest
    (r1.1 :: r2.1, firstError r1.2 r2.2)

/-- A Go slice `[]RAGResponse`: `none` is the nil slice. -/
abbrev Slice := Option (List RAGResponse)

/-- Decode a JSON value into a `[]RAGResponse`: an array gives a slice with
one element per item, `null` gives the nil slice, any other value is a type
error. -/
def decodeSlice (v : JSON) (data : Slice) : Slice × Option DecodeError :=
  match v with
  | .arr items => let d := decodeElements items; (some d.1, d.2)
  | .null => (none, none)
  | other => (data, some (.typeMismatch other.kind ""))

/-- The call `json.Unmarshal(respBody, &data)` for `data` of type
`[]RAGResponse`: the decoded slice, or the error. -/
def jsonUnmarshal (respBody : Body) (data : Slice) : Except DecodeError Slice :=
  match respBody with
  | none => .error .noDocument
  | some v =>
    match decodeSlice v data with
    | (d, none) => .ok d
    | (_, some err) => .error err

/-! ## `encoding/json`: encoding -/

/-- Encoding of a `RAGRequest`: an object with the fields in declaration
order, under their tags. Encoding a struct of a string and an int cannot
fail. -/
def jsonMarshal (req : RAGRequest) : Except String JSON :=
  .ok (.obj [("query", .str req.Query), ("k", .int req.K.val)])

/-- Encoding of a `RAGResponse`. -/
def marshalResponse (r : RAGResponse) : JSON :=
  .obj [("pmid", .int r.PMID.val), ("distance", .int r.Distance.val),
        ("authors", .str r.Authors), ("title", .str r.Title),
        ("abstract", .str r.Abstract), ("publication_year", .int r.PublicationYear.val)]

/-- Encoding of a `[]RAGResponse`: the nil slice is encoded as `null`, any
other slice as the array of its elements. -/
def marshalSlice (data : Slice) : JSON :=
  match data with
  | none => .null
  | some rs => .arr (rs.map marshalResponse)

/-- Encoding of `gin.H` with the single key `error`, as in
`gin.H{"error": msg}`. -/
def errorH (msg : String) : JSON := .obj [("error", .str msg)]

/-! ## `gin`: binding -/

/-- The validation step of `gin` binding. `RAGRequest` has no `binding` tag on
any field, so no field is required and every decoded value passes. -/
def validate (req : RAGRequest) : Except DecodeError RAGRequest := .ok req

/-- The call `c.ShouldBindJSON(&req)` on a fresh `req`: decode the request
body, then validate. -/
def ShouldBindJSON (body : Body) : Except DecodeError RAGRequest :=
  match body with
  | none => .error .noDocument
  | some v =>
    match decodeRequest v RAGRequest.zero with
    | (req, none) => validate req
    | (_, some err) => .error err

/-! ## `net/http` -/

/-- The error of a failed `http.Post`: `*url.Error`, with the operation, the
URL and the message of the underlying error. -/
structure URLError where
  Op : String
  URL : String
  Err : String
deriving DecidableEq

/-- The method `Error()` of `*url.Error`: operation, quoted URL, a colon and
the message of the underlying error. (The URL of this program needs no
escaping inside the quotes.) -/
def URLError.Error (e : URLError) : String :=
  e.Op ++ " \"" ++ e.URL ++ "\": " ++ e.Err

/-- Backend reply `*http.Response`: its status code and what reading its body
to the end gives, the body or the message of a read error. -/
structure HTTPResponse where
  StatusCode : Nat
  Body : Except String Body

/-- The network, seen from `http.Post`: for a URL, a content type and a
request body, the response of the server, or the message of the error that
kept the exchange from completing. -/
abbrev Transport := String → String → JSON → Except String HTTPResponse

/-- One request issued with `http.Post`. -/
structure PostCall where
  url : String
  contentType : String
  body : JSON

/-- The call `io.ReadAll(apiResp.Body)`. -/
def ioReadAll (resp : HTTPResponse) : Except String Body := resp.Body

/-! ## Effects -/

/-- An error value, as handed to `log.Println`. -/
inductive GoError where
  | decode (e : DecodeError)
  | marshal (msg : String)
  | url (e : URLError)
  | read (msg : String)

/-- One line of the process-wide log. -/
inductive LogEntry where
  | println (err : GoError)
  | truncated (k : Int)

/-- One response written to the `gin.Context`. -/
structure Response where
  status : Nat
  body : JSON

/-- What a handler has done so far: the responses it wrote, the requests it
sent to the backend and the lines it logged, each in order. -/
structure World where
  written : List Response
  posts : List PostCall
  log : List LogEntry

/-- Nothing done yet. -/
def World.init : World := ⟨[], [], []⟩

/-- The call `log.Println(err)`. -/
def World.logPrintln (w : World) (err : GoError) : World :=
  { w with log := w.log ++ [.println err] }

/-- The call `log.Printf("Request for k = %d truncated to 100", k)`. -/
def World.logTruncated (w : World) (k : GoInt) : World :=
  { w with log := w.log ++ [.truncated k.val] }

/-- The call `c.JSON(code, obj)`, for `obj` already encoded. -/
def World.JSON (w : World) (code : Nat) (body : JSON) : World :=
  { w with written := w.written ++ [⟨code, body⟩] }

/-- The call `http.Post(url, contentType, body)`: the request is issued, and
a failure of the exchange comes back as a `*url.Error` of operation `Post`. -/
def httpPost (net : Transport) (url contentType : String) (body : JSON) (w : World) :
    Except URLError HTTPResponse × World :=
  let w1 := { w with posts := w.posts ++ [⟨url, contentType, body⟩] }
  match net url contentType body with
  | .ok resp => (.ok resp, w1)
  | .error cause => (.error ⟨"Post", url, cause⟩, w1)

/-- The constant `http.StatusOK`. -/
def StatusOK : Nat := 200

/-- The constant `http.StatusBadRequest`. -/
def StatusBadRequest : Nat := 400

/-- The constant `http.StatusInternalServerError`. -/
def StatusInternalServerError : Nat := 500

/-! ## The handler -/

/-- The handler `func handleSearch(c *gin.Context)`, run on the request body of
`c` in the world `w`, against the network `net`. Each `return` of the Go
function is the end of a branch here. (The deferred `apiResp.Body.Close()`
has no effect that is observed.) -/
def handleSearch (net : Transport) (reqBody : Body) (w : World) : World :=
  match ShouldBindJSON reqBody with
  | .error err =>
    (w.logPrintln (.decode err)).JSON StatusBadRequest (errorH "Invalid request body")
  | .ok req0 =>
    let (req, w) :=
      if req0.K.val > 100 then ({ req0 with K := GoInt.hundred }, w.logTruncated req0.K)
      else (req0, w)
    match jsonMarshal req with
    | .error err =>
      (w.logPrintln (.marshal err)).JSON StatusInternalServerError
        (errorH "Failed to marshal request")
    | .ok body =>
      let (res, w) := httpPost net "http://0.0.0.0:8003/find_matches" "application/json" body w
      match res with
      | .error err =>
        (w.logPrintln (.url err)).JSON StatusInternalServerError (errorH err.Error)
      | .ok apiResp =>
        match ioReadAll apiResp with
        | .error err =>
          (w.logPrintln (.read err)).JSON StatusInternalServerError
            (errorH "Failed to read response")
        | .ok respBody =>
          match jsonUnmarshal respBody none with
          | .error err =>
            (w.logPrintln (.decode err)).JSON StatusInternalServerError
              (errorH "Failed to parse response")
          | .ok data => w.JSON StatusOK (marshalSlice data)


/-! ## Auxiliary definitions for the statements -/

/-- The clamp step of `handleSearch` on its own:
`if req.K > 100 { log.Printf(...); req.K = 100 }`. -/
def clampK (req : RAGRequest) (w : World) : RAGRequest × World :=
  if req.K.val > 100 then ({ req with K := GoInt.hundred }, w.logTruncated req.K)
  else (req, w)

/-- The JSON body posted for an accepted request: the query as decoded and
the smaller of `k` and 100. -/
def forwardedBody (req : RAGRequest) : JSON :=
  .obj [("query", .str req.Query), ("k", .int (min req.K.val 100))]

/-- The world once an accepted request has been clamped and posted. -/
def sent (req : RAGRequest) (w : World) : World :=
  { (clampK req w).2 with
    posts := (clampK req w).2.posts ++
      [⟨"http://0.0.0.0:8003/find_matches", "application/json", forwardedBody req⟩] }

/-- Whether a JSON value is an integer literal. -/
def JSON.isInteger : JSON → Bool
  | .int _ => true
  | _ => false

/-- Whether a JSON value is the literal `null`. -/
def JSON.isNull : JSON → Bool
  | .null => true
  | _ => false

/-- The request body is an object with a member for the field `k` whose value
is neither an integer literal nor `null`: a number with a fraction or an
exponent, a string, a boolean, an array or an object. -/
def hasNonIntegerK (body : Body) : Bool :=
  match body with
  | some (.obj members) =>
    members.any (fun m =>
      lookupField requestFields m.1 == some RequestField.k && !m.2.isInteger && !m.2.isNull)
  | _ => false

/-! ## Concrete inputs -/

/-- The request body with members `query` = `"cancer"` and `k` = the given
integer literal. -/
def cancerRequest (k : Int) : Body :=
  some (.obj [("query", .str "cancer"), ("k", .int k)])

/-- A stub backend that answers every request with the given status code and
body. -/
def stubBackend (status : Nat) (doc : Body) : Transport :=
  fun _ _ _ => .ok ⟨status, .ok doc⟩

/-- A backend that cannot be reached. -/
def deadBackend : Transport :=
  fun _ _ _ => .error "dial tcp 0.0.0.0:8003: connect: connection refused"

/-! ## Lemmas: the paths through the handler -/

theorem clampK_eq (req : RAGRequest) (w : World) :
    (if req.K.val > 100 then ({ req with K := GoInt.hundred }, w.logTruncated req.K)
      else (req, w)) = clampK req w := rfl

theorem clampK_query (req : RAGRequest) (w : World) : (clampK req w).1.Query = req.Query := by
  unfold clampK
  split <;> rfl

theorem clampK_val (req : RAGRequest) (w : World) :
    (clampK req w).1.K.val = min req.K.val 100 := by
  unfold clampK
  split
  · rename_i h
    show (100 : Int) = min req.K.val 100
    omega
  · rename_i h
    show req.K.val = min req.K.val 100
    omega

theorem clampK_written (req : RAGRequest) (w : World) :
    (clampK req w).2.written = w.written := by
  unfold clampK
  split <;> rfl

theorem clampK_posts (req : RAGRequest) (w : World) : (clampK req w).2.posts = w.posts := by
  unfold clampK
  split <;> rfl

theorem marshal_clampK (req : RAGRequest) (w : World) :
    jsonMarshal (clampK req w).1 = .ok (forwardedBody req) := by
  simp only [jsonMarshal, forwardedBody, clampK_query, clampK_val]

theorem sent_written (req : RAGRequest) (w : World) : (sent req w).written = w.written := by
  simp only [sent, clampK_written]

theorem sent_posts (req : RAGRequest) (w : World) :
    (sent req w).posts = w.posts ++
      [⟨"http://0.0.0.0:8003/find_matches", "application/json", forwardedBody req⟩] := by
  simp only [sent, clampK_posts]

/-- Path 1: the body is not accepted. -/
theorem path_reject (net : Transport) (body : Body) (w : World) (e : DecodeError)
    (hrej : ShouldBindJSON body = .error e) :
    handleSearch net body w =
      (w.logPrintln (.decode e)).JSON 400 (errorH "Invalid request body") := by
  unfold handleSearch
  simp only [hrej]
  rfl

/-- Path 2: the body is accepted and the exchange with the backend fails. -/
theorem path_transport (net : Transport) (body : Body) (w : World) (req : RAGRequest)
    (cause : String) (hacc : ShouldBindJSON body = .ok req)
    (hnet : net "http://0.0.0.0:8003/find_matches" "application/json" (forwardedBody req)
      = .error cause) :
    handleSearch net body w =
      ((sent req w).logPrintln
          (.url ⟨"Post", "http://0.0.0.0:8003/find_matches", cause⟩)).JSON 500
        (errorH (URLError.Error ⟨"Post", "http://0.0.0.0:8003/find_matches", cause⟩)) := by
  unfold handleSearch
  simp only [hacc, clampK_eq, marshal_clampK, httpPost, hnet]
  rfl

/-- Path 3: the backend answers and its body cannot be read. -/
theorem path_read (net : Transport) (body : Body) (w : World) (req : RAGRequest)
    (resp : HTTPResponse) (e : String) (hacc : ShouldBindJSON body = .ok req)
    (hnet : net "http://0.0.0.0:8003/find_matches" "application/json" (forwardedBody req)
      = .ok resp)
    (hread : resp.Body = .error e) :
    handleSearch net body w =
      ((sent req w).logPrintln (.read e)).JSON 500 (errorH "Failed to read response") := by
  unfold handleSearch
  simp only [hacc, clampK_eq, marshal_clampK, httpPost, hnet, ioReadAll, hread]
  rfl

/-- Path 4: the backend body is read and does not decode. -/
theorem path_parse (net : Transport) (body : Body) (w : World) (req : RAGRequest)
    (resp : HTTPResponse) (b : Body) (e : DecodeError)
    (hacc : ShouldBindJSON body = .ok req)
    (hnet : net "http://0.0.0.0:8003/find_matches" "application/json" (forwardedBody req)
      = .ok resp)
    (hread : resp.Body = .ok b) (hdec : jsonUnmarshal b none = .error e) :
    handleSearch net body w =
      ((sent req w).logPrintln (.decode e)).JSON 500 (errorH "Failed to parse response") := by
  unfold handleSearch
  simp only [hacc, clampK_eq, marshal_clampK, httpPost, hnet, ioReadAll, hread, hdec]
  rfl

/-- Path 5: the backend body decodes. -/
theorem path_ok (net : Transport) (body : Body) (w : World) (req : RAGRequest)
    (resp : HTTPResponse) (b : Body) (data : Slice)
    (hacc : ShouldBindJSON body = .ok req)
    (hnet : net "http://0.0.0.0:8003/find_matches" "application/json" (forwardedBody req)
      = .ok resp)
    (hread : resp.Body = .ok b) (hdec : jsonUnmarshal b none = .ok data) :
    handleSearch net body w = (sent req w).JSON 200 (marshalSlice data) := by
  unfold handleSearch
  simp only [hacc, clampK_eq, marshal_clampK, httpPost, hnet, ioReadAll, hread, hdec]
  rfl

/-- Writing a response and logging leave the list of posted requests alone. -/
theorem posts_log_JSON (w : World) (err : GoError) (code : Nat) (v : JSON) :
    ((w.logPrintln err).JSON code v).posts = w.posts := rfl

theorem written_log_JSON (w : World) (err : GoError) (code : Nat) (v : JSON) :
    ((w.logPrintln err).JSON code v).written = w.written ++ [⟨code, v⟩] := rfl

/-- Whatever the backend does, an accepted request is posted exactly once,
with the forwarded body. -/
theorem posts_of_accept (net : Transport) (body : Body) (w : World) (req : RAGRequest)
    (hacc : ShouldBindJSON body = .ok req) :
    (handleSearch net body w).posts = w.posts ++
      [⟨"http://0.0.0.0:8003/find_matches", "application/json", forwardedBody req⟩] := by
  cases hnet : net "http://0.0.0.0:8003/find_matches" "application/json" (forwardedBody req) with
  | error cause =>
    rw [path_transport net body w req cause hacc hnet, posts_log_JSON, sent_posts]
  | ok resp =>
    cases hread : resp.Body with
    | error e => rw [path_read net body w req resp e hacc hnet hread, posts_log_JSON, sent_posts]
    | ok b =>
      cases hdec : jsonUnmarshal b none with
      | error e =>
        rw [path_parse net body w req resp b e hacc hnet hread hdec, posts_log_JSON, sent_posts]
      | ok data =>
        rw [path_ok net body w req resp b data hacc hnet hread hdec]
        exact sent_posts req w


/-! ## C1, C2, C7: what is forwarded -/

/-- C1. For every request body that `handleSearch` accepts with `k > 100`, the
one request posted to the backend has the JSON body with members `query`, as
decoded, and `k = 100`. -/
theorem forwarded_k_clamped_to_100 (net : Transport) (body : Body) (w : World)
    (req : RAGRequest) (hacc : ShouldBindJSON body = .ok req) (hk : req.K.val > 100) :
    (handleSearch net body w).posts = w.posts ++
      [⟨"http://0.0.0.0:8003/find_matches", "application/json",
        .obj [("query", .str req.Query), ("k", .int 100)]⟩] := by
  rw [posts_of_accept net body w req hacc, forwardedBody]
  have h : min req.K.val 100 = 100 := by omega
  rw [h]

/-- Witness of C1: the body with query `cancer` and `k = 500` is accepted and
forwarded with `k = 100`. -/
theorem forwarded_k_clamped_to_100_witness :
    ShouldBindJSON (cancerRequest 500) = .ok ⟨"cancer", ⟨500, by decide, by decide⟩⟩ ∧
    (handleSearch deadBackend (cancerRequest 500) World.init).posts =
      [⟨"http://0.0.0.0:8003/find_matches", "application/json",
        .obj [("query", .str "cancer"), ("k", .int 100)]⟩] :=
  ⟨rfl, forwarded_k_clamped_to_100 deadBackend (cancerRequest 500) World.init
    ⟨"cancer", ⟨500, by decide, by decide⟩⟩ rfl (by decide)⟩

/-- C2. For every request body that `handleSearch` accepts with `k ≤ 100`
(positive, zero or negative), the one request posted to the backend has the
JSON body with members `query`, as decoded, and the same `k`. -/
theorem forwarded_k_unchanged_up_to_100 (net : Transport) (body : Body) (w : World)
    (req : RAGRequest) (hacc : ShouldBindJSON body = .ok req) (hk : req.K.val ≤ 100) :
    (handleSearch net body w).posts = w.posts ++
      [⟨"http://0.0.0.0:8003/find_matches", "application/json",
        .obj [("query", .str req.Query), ("k", .int req.K.val)]⟩] := by
  rw [posts_of_accept net body w req hacc, forwardedBody]
  have h : min req.K.val 100 = req.K.val := by omega
  rw [h]

/-- Witness of C2: the body with query `cancer` and `k = -3` is accepted and
forwarded with `k = -3`. -/
theorem forwarded_k_unchanged_up_to_100_witness :
    ShouldBindJSON (cancerRequest (-3)) = .ok ⟨"cancer", ⟨-3, by decide, by decide⟩⟩ ∧
    (handleSearch deadBackend (cancerRequest (-3)) World.init).posts =
      [⟨"http://0.0.0.0:8003/find_matches", "application/json",
        .obj [("query", .str "cancer"), ("k", .int (-3))]⟩] :=
  ⟨rfl, forwarded_k_unchanged_up_to_100 deadBackend (cancerRequest (-3)) World.init
    ⟨"cancer", ⟨-3, by decide, by decide⟩⟩ rfl (by decide)⟩

/-- C7. For every accepted request, the JSON body posted to the backend has
exactly the two members `query` and `k`, its `query` is the string of the
inbound request, and its `k` is the inbound `k` or 100: nothing but `k` is
altered. -/
theorem forwarded_query_unchanged (net : Transport) (body : Body) (w : World)
    (req : RAGRequest) (hacc : ShouldBindJSON body = .ok req) :
    ∃ k : Int, (k = req.K.val ∨ k = 100) ∧
      (handleSearch net body w).posts = w.posts ++
        [⟨"http://0.0.0.0:8003/find_matches", "application/json",
          .obj [("query", .str req.Query), ("k", .int k)]⟩] := by
  refine ⟨min req.K.val 100, ?_, ?_⟩
  · omega
  · rw [posts_of_accept net body w req hacc, forwardedBody]

/-- Witness of C7: the body with query `cancer` and `k = 7`. -/
theorem forwarded_query_unchanged_witness :
    ShouldBindJSON (cancerRequest 7) = .ok ⟨"cancer", ⟨7, by decide, by decide⟩⟩ ∧
    ∃ k : Int, (k = 7 ∨ k = 100) ∧
      (handleSearch (stubBackend 200 (some (.arr []))) (cancerRequest 7) World.init).posts =
        [⟨"http://0.0.0.0:8003/find_matches", "application/json",
          .obj [("query", .str "cancer"), ("k", .int k)]⟩] :=
  ⟨rfl, forwarded_query_unchanged (stubBackend 200 (some (.arr []))) (cancerRequest 7)
    World.init ⟨"cancer", ⟨7, by decide, by decide⟩⟩ rfl⟩


/-! ## C8, C5: the error paths behind the backend call -/

/-- The message of a `*url.Error` is never empty. -/
theorem URLError.Error_ne_empty (e : URLError) : e.Error ≠ "" := by
  intro h
  have hlen := congrArg String.length h
  simp only [URLError.Error, String.length_append] at hlen
  have h4 : 4 ≤ (0 : Nat) := by
    have hq : " \"".length = 2 := by decide
    have hc : "\": ".length = 3 := by decide
    have h0 : "".length = 0 := by decide
    omega
  omega

/-- C8. For every accepted request, if the POST to the backend fails with a
transport error, the one response has status 500 and the body
`gin.H` with `error` set to the message of the error `http.Post` returns,
and that message is not empty. -/
theorem transport_error_gives_500 (net : Transport) (body : Body) (w : World)
    (req : RAGRequest) (cause : String) (hacc : ShouldBindJSON body = .ok req)
    (hnet : net "http://0.0.0.0:8003/find_matches" "application/json"
      (.obj [("query", .str req.Query), ("k", .int (min req.K.val 100))]) = .error cause) :
    (handleSearch net body w).written = w.written ++
      [⟨500, .obj [("error",
        .str (URLError.Error ⟨"Post", "http://0.0.0.0:8003/find_matches", cause⟩))]⟩] ∧
    URLError.Error ⟨"Post", "http://0.0.0.0:8003/find_matches", cause⟩ ≠ "" := by
  refine ⟨?_, URLError.Error_ne_empty _⟩
  rw [path_transport net body w req cause hacc hnet, written_log_JSON, sent_written]
  rfl

/-- Witness of C8: the backend refuses the connection. -/
theorem transport_error_gives_500_witness :
    ShouldBindJSON (cancerRequest 5) = .ok ⟨"cancer", ⟨5, by decide, by decide⟩⟩ ∧
    (handleSearch deadBackend (cancerRequest 5) World.init).written =
      [⟨500, .obj [("error", .str (URLError.Error ⟨"Post", "http://0.0.0.0:8003/find_matches",
        "dial tcp 0.0.0.0:8003: connect: connection refused"⟩))]⟩] ∧
    URLError.Error ⟨"Post", "http://0.0.0.0:8003/find_matches",
      "dial tcp 0.0.0.0:8003: connect: connection refused"⟩ ≠ "" :=
  ⟨rfl, transport_error_gives_500 deadBackend (cancerRequest 5) World.init
    ⟨"cancer", ⟨5, by decide, by decide⟩⟩
    "dial tcp 0.0.0.0:8003: connect: connection refused" rfl rfl⟩

/-- C5. For every accepted request, if the backend response body is not valid
JSON, or is a JSON object, the one response has status 500 and the body
`gin.H` with `error` set to `Failed to parse response`. -/
theorem unparsable_backend_body_gives_500 (net : Transport) (body : Body) (w : World)
    (req : RAGRequest) (resp : HTTPResponse) (doc : Body)
    (hacc : ShouldBindJSON body = .ok req)
    (hnet : net "http://0.0.0.0:8003/find_matches" "application/json"
      (.obj [("query", .str req.Query), ("k", .int (min req.K.val 100))]) = .ok resp)
    (hread : resp.Body = .ok doc)
    (hbad : doc = none ∨ ∃ members, doc = some (.obj members)) :
    (handleSearch net body w).written = w.written ++
      [⟨500, .obj [("error", .str "Failed to parse response")]⟩] := by
  have hdec : ∃ e, jsonUnmarshal doc none = .error e := by
    rcases hbad with h | ⟨members, h⟩
    · exact ⟨.noDocument, by rw [h]; rfl⟩
    · exact ⟨.typeMismatch "object" "", by rw [h]; rfl⟩
  obtain ⟨e, he⟩ := hdec
  rw [path_parse net body w req resp doc e hacc hnet hread he, written_log_JSON, sent_written]
  rfl

/-- Witness of C5: the backend answers with the JSON object that has the one
member `detail`. -/
theorem unparsable_backend_body_gives_500_witness :
    (handleSearch (stubBackend 200 (some (.obj [("detail", .str "oops")])))
        (cancerRequest 5) World.init).written =
      [⟨500, .obj [("error", .str "Failed to parse response")]⟩] :=
  unparsable_backend_body_gives_500 (stubBackend 200 (some (.obj [("detail", .str "oops")])))
    (cancerRequest 5) World.init ⟨"cancer", ⟨5, by decide, by decide⟩⟩
    ⟨200, .ok (some (.obj [("detail", .str "oops")]))⟩ (some (.obj [("detail", .str "oops")]))
    rfl rfl rfl (Or.inr ⟨_, rfl⟩)

/-! ## C9: one response on every path -/

/-- C9. For every inbound request body and every behaviour of the backend,
`handleSearch` writes exactly one response, with status 200, 400 or 500. The
pipeline is linear: a body that is not accepted is answered with 400 before
anything is posted, and an accepted body is posted exactly once and answered
with 200 or 500. -/
theorem exactly_one_response (net : Transport) (body : Body) (w : World) :
    ∃ r : Response, (handleSearch net body w).written = w.written ++ [r] ∧
      (r.status = 200 ∨ r.status = 400 ∨ r.status = 500) ∧
      ((∃ e, ShouldBindJSON body = .error e ∧ r.status = 400 ∧
          (handleSearch net body w).posts = w.posts) ∨
       (∃ req p, ShouldBindJSON body = .ok req ∧ (r.status = 200 ∨ r.status = 500) ∧
          (handleSearch net body w).posts = w.posts ++ [p])) := by
  cases hacc : ShouldBindJSON body with
  | error e =>
    refine ⟨⟨400, errorH "Invalid request body"⟩, ?_, Or.inr (Or.inl rfl),
      Or.inl ⟨e, rfl, rfl, ?_⟩⟩
    · rw [path_reject net body w e hacc, written_log_JSON]
    · rw [path_reject net body w e hacc, posts_log_JSON]
  | ok req =>
    have hposts := posts_of_accept net body w req hacc
    cases hnet : net "http://0.0.0.0:8003/find_matches" "application/json"
        (forwardedBody req) with
    | error cause =>
      refine ⟨⟨500, errorH (URLError.Error ⟨"Post", "http://0.0.0.0:8003/find_matches", cause⟩)⟩,
        ?_, Or.inr (Or.inr rfl), Or.inr ⟨req, _, rfl, Or.inr rfl, hposts⟩⟩
      rw [path_transport net body w req cause hacc hnet, written_log_JSON, sent_written]
    | ok resp =>
      cases hread : resp.Body with
      | error e =>
        refine ⟨⟨500, errorH "Failed to read response"⟩, ?_, Or.inr (Or.inr rfl),
          Or.inr ⟨req, _, rfl, Or.inr rfl, hposts⟩⟩
        rw [path_read net body w req resp e hacc hnet hread, written_log_JSON, sent_written]
      | ok b =>
        cases hdec : jsonUnmarshal b none with
        | error e =>
          refine ⟨⟨500, errorH "Failed to parse response"⟩, ?_, Or.inr (Or.inr rfl),
            Or.inr ⟨req, _, rfl, Or.inr rfl, hposts⟩⟩
          rw [path_parse net body w req resp b e hacc hnet hread hdec, written_log_JSON,
            sent_written]
        | ok data =>
          refine ⟨⟨200, marshalSlice data⟩, ?_, Or.inl rfl,
            Or.inr ⟨req, _, rfl, Or.inl rfl, hposts⟩⟩
          rw [path_ok net body w req resp b data hacc hnet hread hdec]
          show (sent req w).written ++ _ = _
          rw [sent_written]

/-! ## C10: the status code of the backend is not looked at -/

/-- C10. If two backends differ at most in the status codes of their
responses (same transport errors, same bodies, same read errors),
`handleSearch` does the same with both: same response to the caller, same
posted request, same log. -/
theorem backend_status_ignored (net1 net2 : Transport) (body : Body) (w : World)
    (hsame : ∀ url contentType b,
      Except.map HTTPResponse.Body (net1 url contentType b) =
        Except.map HTTPResponse.Body (net2 url contentType b)) :
    handleSearch net1 body w = handleSearch net2 body w := by
  cases hacc : ShouldBindJSON body with
  | error e => rw [path_reject net1 body w e hacc, path_reject net2 body w e hacc]
  | ok req =>
    have h := hsame "http://0.0.0.0:8003/find_matches" "application/json" (forwardedBody req)
    cases h1 : net1 "http://0.0.0.0:8003/find_matches" "application/json"
        (forwardedBody req) with
    | error c1 =>
      cases h2 : net2 "http://0.0.0.0:8003/find_matches" "application/json"
          (forwardedBody req) with
      | error c2 =>
        rw [h1, h2] at h
        simp only [Except.map, Except.error.injEq] at h
        subst h
        rw [path_transport net1 body w req c1 hacc h1, path_transport net2 body w req c1 hacc h2]
      | ok r2 =>
        rw [h1, h2] at h
        simp [Except.map] at h
    | ok r1 =>
      cases h2 : net2 "http://0.0.0.0:8003/find_matches" "application/json"
          (forwardedBody req) with
      | error c2 =>
        rw [h1, h2] at h
        simp [Except.map] at h
      | ok r2 =>
        rw [h1, h2] at h
        simp only [Except.map, Except.ok.injEq] at h
        cases hread : r1.Body with
        | error e =>
          rw [path_read net1 body w req r1 e hacc h1 hread,
            path_read net2 body w req r2 e hacc h2 (h ▸ hread)]
        | ok b =>
          cases hdec : jsonUnmarshal b none with
          | error e =>
            rw [path_parse net1 body w req r1 b e hacc h1 hread hdec,
              path_parse net2 body w req r2 b e hacc h2 (h ▸ hread) hdec]
          | ok data =>
            rw [path_ok net1 body w req r1 b data hacc h1 hread hdec,
              path_ok net2 body w req r2 b data hacc h2 (h ▸ hread) hdec]

/-- Witness of C10: a backend that answers 500 with a JSON array as body is
treated like one that answers 200 with that body, and the array is relayed
with status 200. -/
theorem backend_status_ignored_witness :
    handleSearch (stubBackend 500 (some (.arr []))) (cancerRequest 5) World.init =
      handleSearch (stubBackend 200 (some (.arr []))) (cancerRequest 5) World.init ∧
    (handleSearch (stubBackend 500 (some (.arr []))) (cancerRequest 5) World.init).written =
      [⟨200, .arr []⟩] :=
  ⟨backend_status_ignored (stubBackend 500 (some (.arr []))) (stubBackend 200 (some (.arr [])))
    (cancerRequest 5) World.init (fun _ _ _ => rfl), rfl⟩


/-! ## Lemmas: decoding what was encoded -/

theorem lookup_pmid : lookupField responseFields "pmid" = some .pmid := by decide

theorem lookup_distance : lookupField responseFields "distance" = some .distance := by decide

theorem lookup_authors : lookupField responseFields "authors" = some .authors := by decide

theorem lookup_title : lookupField responseFields "title" = some .title := by decide

theorem lookup_abstract : lookupField responseFields "abstract" = some .abstract := by decide

theorem lookup_publication_year :
    lookupField responseFields "publication_year" = some .publicationYear := by decide

theorem lookup_query : lookupField requestFields "query" = some .query := by decide

theorem lookup_k : lookupField requestFields "k" = some .k := by decide

/-- Decoding the literal of a Go `int` gives that `int` back. -/
theorem decodeInt_val (field : String) (n cur : GoInt) :
    decodeInt field (.int n.val) cur = (n, none) := by
  simp only [decodeInt]
  rw [dif_pos ⟨n.lo, n.hi⟩]

/-- Decoding the encoding of a record, into any record, gives the record. -/
theorem decodeResponse_marshal (r cur : RAGResponse) :
    decodeResponse (marshalResponse r) cur = (r, none) := by
  simp only [decodeResponse, marshalResponse, decodeMembers, RAGResponse.setMember,
    lookup_pmid, lookup_distance, lookup_authors, lookup_title, lookup_abstract,
    lookup_publication_year, decodeInt_val, decodeString, firstError]

/-- Every `RAGRequest` is what binding accepts from its own encoding: the
object with the members `query` and `k`. -/
theorem ShouldBindJSON_encoded (req : RAGRequest) :
    ShouldBindJSON (some (.obj [("query", .str req.Query), ("k", .int req.K.val)])) =
      .ok req := by
  simp only [ShouldBindJSON, decodeRequest, decodeMembers, RAGRequest.setMember, lookup_query,
    lookup_k, decodeInt_val, decodeString, firstError, validate]

/-- Decoding the encodings of a list of records gives the list. -/
theorem decodeElements_marshal (rs : List RAGResponse) :
    decodeElements (rs.map marshalResponse) = (rs, none) := by
  induction rs with
  | nil => rfl
  | cons r rest ih =>
    simp only [List.map_cons, decodeElements, decodeResponse_marshal, ih, firstError]

/-- A JSON array decodes into as many records as it has items. -/
theorem decodeElements_length (items : List JSON) :
    (decodeElements items).1.length = items.length := by
  induction items with
  | nil => rfl
  | cons v rest ih => simp only [decodeElements, List.length_cons, ih]

/-! ## C6: relay round trip -/

/-- C6. For every list of records, if the backend body is the JSON encoding
of that list (an array with one object per record, members `pmid`,
`distance`, `authors`, `title`, `abstract`, `publication_year`), the one
response has status 200 and that same array as body, and the array decodes
to exactly the list. -/
theorem relay_round_trip (net : Transport) (body : Body) (w : World) (req : RAGRequest)
    (resp : HTTPResponse) (rs : List RAGResponse)
    (hacc : ShouldBindJSON body = .ok req)
    (hnet : net "http://0.0.0.0:8003/find_matches" "application/json"
      (.obj [("query", .str req.Query), ("k", .int (min req.K.val 100))]) = .ok resp)
    (hread : resp.Body = .ok (some (.arr (rs.map marshalResponse)))) :
    (handleSearch net body w).written =
      w.written ++ [⟨200, .arr (rs.map marshalResponse)⟩] ∧
    jsonUnmarshal (some (.arr (rs.map marshalResponse))) none = .ok (some rs) := by
  have hdec : jsonUnmarshal (some (.arr (rs.map marshalResponse))) none = .ok (some rs) := by
    simp only [jsonUnmarshal, decodeSlice, decodeElements_marshal]
  refine ⟨?_, hdec⟩
  rw [path_ok net body w req resp _ (some rs) hacc hnet hread hdec]
  show (sent req w).written ++ _ = _
  rw [sent_written]
  rfl

/-- Witness of C6: the request with query `cancer` and `k = 5`, and a backend
that answers with the one record of pmid 123, distance 2, authors `Smith J`,
title `On Cancer`, abstract `...`, publication year 2020. -/
theorem relay_round_trip_witness :
    (handleSearch
        (stubBackend 200 (some (.arr [.obj [("pmid", .int 123), ("distance", .int 2),
          ("authors", .str "Smith J"), ("title", .str "On Cancer"), ("abstract", .str "..."),
          ("publication_year", .int 2020)]])))
        (cancerRequest 5) World.init).written =
      [⟨200, .arr [.obj [("pmid", .int 123), ("distance", .int 2),
          ("authors", .str "Smith J"), ("title", .str "On Cancer"), ("abstract", .str "..."),
          ("publication_year", .int 2020)]]⟩] ∧
    jsonUnmarshal (some (.arr [.obj [("pmid", .int 123), ("distance", .int 2),
          ("authors", .str "Smith J"), ("title", .str "On Cancer"), ("abstract", .str "..."),
          ("publication_year", .int 2020)]])) none =
      .ok (some [⟨⟨123, by decide, by decide⟩, ⟨2, by decide, by decide⟩, "Smith J",
        "On Cancer", "...", ⟨2020, by decide, by decide⟩⟩]) :=
  relay_round_trip
    (stubBackend 200 (some (.arr [.obj [("pmid", .int 123), ("distance", .int 2),
      ("authors", .str "Smith J"), ("title", .str "On Cancer"), ("abstract", .str "..."),
      ("publication_year", .int 2020)]])))
    (cancerRequest 5) World.init ⟨"cancer", ⟨5, by decide, by decide⟩⟩
    ⟨200, .ok (some (.arr [.obj [("pmid", .int 123), ("distance", .int 2),
      ("authors", .str "Smith J"), ("title", .str "On Cancer"), ("abstract", .str "..."),
      ("publication_year", .int 2020)]]))⟩
    [⟨⟨123, by decide, by decide⟩, ⟨2, by decide, by decide⟩, "Smith J", "On Cancer", "...",
      ⟨2020, by decide, by decide⟩⟩]
    rfl rfl rfl


/-! ## C4: the shape of the response -/

/-- The backend bodies that decode without error: the literal `null`, which
gives the nil slice, and the arrays, which give one record per item. -/
theorem jsonUnmarshal_ok (b : Body) (data : Slice) (h : jsonUnmarshal b none = .ok data) :
    (b = some .null ∧ data = none) ∨
    ∃ items, b = some (.arr items) ∧ data = some (decodeElements items).1 := by
  cases b with
  | none => simp [jsonUnmarshal] at h
  | some v =>
    cases v with
    | null =>
      simp only [jsonUnmarshal, decodeSlice, Except.ok.injEq] at h
      exact Or.inl ⟨rfl, h.symm⟩
    | arr items =>
      refine Or.inr ⟨items, rfl, ?_⟩
      simp only [jsonUnmarshal, decodeSlice] at h
      cases he : (decodeElements items).2 with
      | none =>
        rw [he] at h
        simp only [Except.ok.injEq] at h
        exact h.symm
      | some e =>
        rw [he] at h
        simp at h
    | bool x => simp [jsonUnmarshal, decodeSlice] at h
    | int x => simp [jsonUnmarshal, decodeSlice] at h
    | real x => simp [jsonUnmarshal, decodeSlice] at h
    | str x => simp [jsonUnmarshal, decodeSlice] at h
    | obj x => simp [jsonUnmarshal, decodeSlice] at h

/-- Counterexample to C4: the request with query `cancer` and `k = 5` is
accepted, the backend answers with the JSON literal `null`, and the caller
receives status 200 with the body `null`, which is not an array of records. -/
theorem null_backend_body_relayed_as_null :
    ShouldBindJSON (cancerRequest 5) = .ok ⟨"cancer", ⟨5, by decide, by decide⟩⟩ ∧
    jsonUnmarshal (some .null) none = .ok none ∧
    (handleSearch (stubBackend 200 (some .null)) (cancerRequest 5) World.init).written =
      [⟨200, .null⟩] ∧
    ¬ ∃ rs : List RAGResponse, JSON.null = .arr (rs.map marshalResponse) :=
  ⟨rfl, rfl, rfl, fun ⟨_, h⟩ => JSON.noConfusion h⟩

/-- C4, amended. For every request body and every behaviour of the backend,
the one response is a JSON object with the single string member `error`
whenever its status is not 200; whenever its status is 200, the backend
answered the posted request with a body that is the literal `null`, and then
the response body is the literal `null`, or with a body that is a JSON array,
and then the response body is a JSON array of records, one per item. -/
theorem response_shape (net : Transport) (body : Body) (w : World) :
    ∃ r : Response, (handleSearch net body w).written = w.written ++ [r] ∧
      (r.status ≠ 200 → ∃ msg : String, r.body = .obj [("error", .str msg)]) ∧
      (r.status = 200 →
        ∃ (p : PostCall) (resp : HTTPResponse) (doc : JSON),
          (handleSearch net body w).posts = w.posts ++ [p] ∧
          net p.url p.contentType p.body = .ok resp ∧ resp.Body = .ok (some doc) ∧
          ((doc = .null ∧ r.body = .null) ∨
           ∃ (items : List JSON) (rs : List RAGResponse),
             doc = .arr items ∧ rs.length = items.length ∧
             r.body = .arr (rs.map marshalResponse))) := by
  cases hacc : ShouldBindJSON body with
  | error e =>
    refine ⟨⟨400, errorH "Invalid request body"⟩, ?_, fun _ => ⟨_, rfl⟩, ?_⟩
    · rw [path_reject net body w e hacc, written_log_JSON]
    · intro h
      exact absurd h (by decide)
  | ok req =>
    have hposts := posts_of_accept net body w req hacc
    cases hnet : net "http://0.0.0.0:8003/find_matches" "application/json"
        (forwardedBody req) with
    | error cause =>
      refine ⟨⟨500, errorH (URLError.Error ⟨"Post", "http://0.0.0.0:8003/find_matches", cause⟩)⟩,
        ?_, fun _ => ⟨_, rfl⟩, ?_⟩
      · rw [path_transport net body w req cause hacc hnet, written_log_JSON, sent_written]
      · intro h
        have h5 : (500 : Nat) = 200 := h
        exact absurd h5 (by decide)
    | ok resp =>
      cases hread : resp.Body with
      | error e =>
        refine ⟨⟨500, errorH "Failed to read response"⟩, ?_, fun _ => ⟨_, rfl⟩, ?_⟩
        · rw [path_read net body w req resp e hacc hnet hread, written_log_JSON, sent_written]
        · intro h
          exact absurd h (by decide)
      | ok b =>
        cases hdec : jsonUnmarshal b none with
        | error e =>
          refine ⟨⟨500, errorH "Failed to parse response"⟩, ?_, fun _ => ⟨_, rfl⟩, ?_⟩
          · rw [path_parse net body w req resp b e hacc hnet hread hdec, written_log_JSON,
              sent_written]
          · intro h
            exact absurd h (by decide)
        | ok data =>
          refine ⟨⟨200, marshalSlice data⟩, ?_, fun h => absurd rfl h, fun _ => ?_⟩
          · rw [path_ok net body w req resp b data hacc hnet hread hdec]
            show (sent req w).written ++ _ = _
            rw [sent_written]
          · rcases jsonUnmarshal_ok b data hdec with ⟨hb, hd⟩ | ⟨items, hb, hd⟩
            · refine ⟨_, resp, .null, hposts, hnet, ?_, Or.inl ⟨rfl, ?_⟩⟩
              · rw [hread, hb]
              · rw [hd]
                rfl
            · refine ⟨_, resp, .arr items, hposts, hnet, ?_,
                Or.inr ⟨items, (decodeElements items).1, rfl, decodeElements_length items, ?_⟩⟩
              · rw [hread, hb]
              · rw [hd]
                rfl


/-! ## C3: rejected request bodies -/

theorem firstError_left (e1 e2 : Option DecodeError) (h : e1 ≠ none) :
    firstError e1 e2 ≠ none := by
  cases e1 with
  | none => exact absurd rfl h
  | some e => simp [firstError]

theorem firstError_right (e1 e2 : Option DecodeError) (h : e2 ≠ none) :
    firstError e1 e2 ≠ none := by
  cases e1 with
  | none => exact h
  | some e => simp [firstError]

/-- A member that cannot be decoded, whatever the struct holds by then, makes
the decoding of the whole object fail, wherever the member stands. -/
theorem decodeMembers_error {σ : Type} (step : σ → String → JSON → σ × Option DecodeError)
    (key : String) (v : JSON) (hbad : ∀ s, (step s key v).2 ≠ none) :
    ∀ (members : List (String × JSON)), (key, v) ∈ members →
      ∀ s, (decodeMembers step members s).2 ≠ none := by
  intro members
  induction members with
  | nil => intro hmem; simp at hmem
  | cons m rest ih =>
    intro hmem s
    obtain ⟨k1, v1⟩ := m
    simp only [decodeMembers]
    rcases List.mem_cons.mp hmem with hhead | htail
    · have hk : key = k1 := congrArg Prod.fst hhead
      have hv : v = v1 := congrArg Prod.snd hhead
      subst hk
      subst hv
      exact firstError_left _ _ (hbad s)
    · exact firstError_right _ _ (ih htail _)

/-- A value for the field `k` that is neither an integer literal nor `null`
is a type error. -/
theorem setMember_nonInteger_k (r : RAGRequest) (key : String) (v : JSON)
    (hkey : lookupField requestFields key = some .k) (hint : v.isInteger = false)
    (hnull : v.isNull = false) : (r.setMember key v).2 ≠ none := by
  simp only [RAGRequest.setMember, hkey]
  cases v with
  | null => simp [JSON.isNull] at hnull
  | int n => simp [JSON.isInteger] at hint
  | bool b => simp [decodeInt]
  | real l => simp [decodeInt]
  | str s => simp [decodeInt]
  | arr xs => simp [decodeInt]
  | obj ms => simp [decodeInt]

/-- Counterexample to C3: a body without `query` is accepted (the field keeps
the empty string) and forwarded to the backend, and so is a body whose `k`
is `null` (the field keeps zero). -/
theorem missing_query_accepted :
    ShouldBindJSON (some (.obj [("k", .int 5)])) = .ok ⟨"", ⟨5, by decide, by decide⟩⟩ ∧
    (handleSearch (stubBackend 200 (some (.arr []))) (some (.obj [("k", .int 5)]))
        World.init).written = [⟨200, .arr []⟩] ∧
    (handleSearch (stubBackend 200 (some (.arr []))) (some (.obj [("k", .int 5)]))
        World.init).posts =
      [⟨"http://0.0.0.0:8003/find_matches", "application/json",
        .obj [("query", .str ""), ("k", .int 5)]⟩] ∧
    (handleSearch (stubBackend 200 (some (.arr [])))
        (some (.obj [("query", .str "cancer"), ("k", .null)])) World.init).written =
      [⟨200, .arr []⟩] ∧
    (handleSearch (stubBackend 200 (some (.arr [])))
        (some (.obj [("query", .str "cancer"), ("k", .null)])) World.init).posts =
      [⟨"http://0.0.0.0:8003/find_matches", "application/json",
        .obj [("query", .str "cancer"), ("k", .int 0)]⟩] :=
  ⟨rfl, rfl, rfl, rfl, rfl⟩

/-- C3, amended. For any request body that is a JSON object with a `k` member
whose value is neither an integer literal nor `null`, `handleSearch` writes
the one response of status 400 and body `gin.H` with `error` set to
`Invalid request body`, and posts nothing to the backend. -/
theorem non_integer_k_rejected (net : Transport) (body : Body) (w : World)
    (hk : hasNonIntegerK body = true) :
    (handleSearch net body w).written = w.written ++
      [⟨400, .obj [("error", .str "Invalid request body")]⟩] ∧
    (handleSearch net body w).posts = w.posts := by
  have hrej : ∃ e, ShouldBindJSON body = .error e := by
    cases body with
    | none => simp [hasNonIntegerK] at hk
    | some v =>
      cases v with
      | obj members =>
        simp only [hasNonIntegerK, List.any_eq_true, Bool.and_eq_true, beq_iff_eq,
          Bool.not_eq_true'] at hk
        obtain ⟨⟨key, val⟩, hmem, ⟨hkey, hint⟩, hnull⟩ := hk
        have herr := decodeMembers_error RAGRequest.setMember key val
          (fun s => setMember_nonInteger_k s key val hkey hint hnull) members hmem
          RAGRequest.zero
        simp only [ShouldBindJSON, decodeRequest]
        cases hd : decodeMembers RAGRequest.setMember members RAGRequest.zero with
        | mk r oe =>
          cases oe with
          | none => rw [hd] at herr; exact absurd rfl herr
          | some e => exact ⟨e, rfl⟩
      | null => simp [hasNonIntegerK] at hk
      | bool b => simp [hasNonIntegerK] at hk
      | int n => simp [hasNonIntegerK] at hk
      | real l => simp [hasNonIntegerK] at hk
      | str s => simp [hasNonIntegerK] at hk
      | arr xs => simp [hasNonIntegerK] at hk
  obtain ⟨e, he⟩ := hrej
  rw [path_reject net body w e he]
  exact ⟨rfl, rfl⟩

/-- Witness of C3, amended: the body with query `cancer` and `k = 1.5`. -/
theorem non_integer_k_rejected_witness :
    (handleSearch deadBackend (some (.obj [("query", .str "cancer"), ("k", .real "1.5")]))
        World.init).written = [⟨400, .obj [("error", .str "Invalid request body")]⟩] ∧
    (handleSearch deadBackend (some (.obj [("query", .str "cancer"), ("k", .real "1.5")]))
        World.init).posts = [] :=
  non_integer_k_rejected deadBackend (some (.obj [("query", .str "cancer"), ("k", .real "1.5")]))
    World.init (by decide)

end PubmedFastRAG
